import Mathlib

/-!
Shallow embedding of `src/server.js`, an Express payment-relay server.

JavaScript request-body numbers are modelled as rationals (`ℚ`), absent
fields (`undefined`) as `Option.none`.  JS truthiness is modelled field-wise:
a string is falsy when absent or empty, a number when absent or zero, an
array value is always truthy (even when empty).  `Math.round` rounds half
toward positive infinity, so it is `fun q => Int.floor (q + 1/2)`.
`Math.round(undefined * 100)` is NaN; a NaN minor-unit amount is modelled as
`Option.none` in `LineItem.unit_amount`.

Each handler is a pure function from the request (plus the outcome of the
external Stripe capability, passed as a function argument) to the HTTP
response together with the list of external calls it performed, so that
claims about "no external call is made" and about the exact parameters sent
to the processor can be stated.
-/

namespace PaymentServer

/-- JSON-like values appearing in response bodies. `null` models both JS
`null` and `undefined`; `strMap` models an opaque string-to-string metadata
object attached by the processor. -/
inductive JVal where
  | str : String → JVal
  | num : ℚ → JVal
  | bool : Bool → JVal
  | null : JVal
  | strMap : List (String × String) → JVal
deriving Repr, DecidableEq, BEq

/-- One entry of `CheckoutRequest.items`; each field may be absent. -/
structure Item where
  title : Option String
  quantity : Option ℚ
  price : Option ℚ
deriving Repr, DecidableEq

/-- Body of POST /create-checkout-session (fields destructured at server.js:47). -/
structure CheckoutRequest where
  userId : Option String
  amount : Option ℚ
  items : Option (List Item)
  type : Option String
  packageId : Option String
deriving Repr, DecidableEq

/-- Body of POST /verify-payment. -/
structure VerifyRequest where
  sessionId : Option String
deriving Repr, DecidableEq

/-- Body of POST /handle-cancellation; `timestamp` is an arbitrary
passthrough JSON value. -/
structure CancellationRequest where
  userId : Option String
  timestamp : Option JVal
deriving Repr, DecidableEq

/-- A Stripe line item as built at server.js:66 and server.js:83.
`unit_amount = none` models the NaN produced by `Math.round(undefined * 100)`. -/
structure LineItem where
  name : String
  description : Option String
  unit_amount : Option ℤ
  quantity : ℚ
deriving Repr, DecidableEq

/-- The argument object of `stripe.checkout.sessions.create` (server.js:113). -/
structure SessionParams where
  payment_method_types : List String
  line_items : List LineItem
  mode : String
  success_url : String
  cancel_url : String
  client_reference_id : String
  meta_userId : String
  meta_timestamp : String
  meta_packageId : String
  meta_type : String
  meta_itemCount : Nat
deriving Repr, DecidableEq

/-- The session object returned by `stripe.checkout.sessions.retrieve`. -/
structure StripeSession where
  id : String
  payment_status : String
  amount_total : ℚ
  customer : Option String
  metadata : List (String × String)
deriving Repr, DecidableEq

/-- A call to the external payment capability. -/
inductive ExtCall where
  | createSession : SessionParams → ExtCall
  | retrieveSession : String → ExtCall
deriving Repr, DecidableEq

/-- An HTTP response: status code and JSON body (ordered field list). -/
structure Response where
  status : Nat
  body : List (String × JVal)
deriving Repr, DecidableEq

/-- JS truthiness of an optional string: absent and "" are falsy. -/
def jsTruthyStr : Option String → Bool
  | none => false
  | some s => decide (s ≠ "")

/-- JS truthiness of an optional number: absent and 0 are falsy. -/
def jsTruthyQ : Option ℚ → Bool
  | none => false
  | some q => decide (q ≠ 0)

/-- JS truthiness of an optional array: any array object is truthy,
including the empty array. -/
def jsTruthyArr : Option (List Item) → Bool
  | none => false
  | some _ => true

/-- JS `x || d` for optional strings. -/
def jsOrStr (x : Option String) (d : String) : String :=
  match x with
  | none => d
  | some s => if s = "" then d else s

/-- JS `x || d` for optional numbers. -/
def jsOrQ (x : Option ℚ) (d : ℚ) : ℚ :=
  match x with
  | none => d
  | some q => if q = 0 then d else q

/-- JS `error.message || d`. -/
def jsErrMsg (msg d : String) : String := if msg = "" then d else msg

/-- JS `Math.round`: round half toward positive infinity. -/
def jsRound (q : ℚ) : ℤ := ⌊q + 1/2⌋

/-- `Math.round(x * 100)` where `x` may be `undefined` (result NaN, `none`). -/
def jsRound100 (x : Option ℚ) : Option ℤ :=
  x.map (fun q => jsRound (q * 100))

/-- JS number-to-string as used by template literals, for the integer
quantities that occur in this development. -/
def jsNumStr (q : ℚ) : String :=
  if q.den = 1 then toString q.num else toString q

/-- `type === 'activity_upgrade' && Array.isArray(items) && items.length > 0`
(server.js:62). -/
def activityBranch (req : CheckoutRequest) : Bool :=
  req.type == some "activity_upgrade" &&
    (match req.items with
     | some l => decide (0 < l.length)
     | none => false)

/-- One mapped line item of the activity-upgrade branch (server.js:66). -/
def itemToLineItem (it : Item) : LineItem where
  name := jsOrStr it.title "Activity"
  description := some ("Quantity: " ++ jsNumStr (jsOrQ it.quantity 1))
  unit_amount := some (jsRound (jsOrQ it.price 0 * 100))
  quantity := jsOrQ it.quantity 1

/-- Line-item construction (server.js:60-93). -/
def buildLineItems (req : CheckoutRequest) : List LineItem :=
  if activityBranch req then
    (req.items.getD []).map itemToLineItem
  else
    [{ name := "Travel Package Booking", description := none,
       unit_amount := jsRound100 req.amount, quantity := 1 }]

def prodBase : String := "https://kenyaonabudgetsafaris.co.uk"

/-- Production success URL (server.js:96). -/
def prodSuccessUrl (userId : String) (ts : Nat) (ty : Option String) : String :=
  prodBase ++ "/payment-successa.html?session_id=\x7bCHECKOUT_SESSION_ID\x7d&userId="
    ++ userId ++ "&timestamp=" ++ toString ts ++ "&type=" ++ jsOrStr ty "package"

/-- Production cancel URL (server.js:97). -/
def prodCancelUrl (userId : String) (ts : Nat) : String :=
  prodBase ++ "/payment-cancelled.html?userId=" ++ userId
    ++ "&timestamp=" ++ toString ts

/-- Local-development success URL (server.js:104, inside the dead branch). -/
def localSuccessUrl (origin userId : String) (ts : Nat) (ty : Option String) : String :=
  origin ++ "/payment-success.html?session_id=\x7bCHECKOUT_SESSION_ID\x7d&userId="
    ++ userId ++ "&timestamp=" ++ toString ts ++ "&type=" ++ jsOrStr ty "package"

/-- Local-development cancel URL (server.js:105, inside the dead branch). -/
def localCancelUrl (origin userId : String) (ts : Nat) : String :=
  origin ++ "/payment-cancelled.html?userId=" ++ userId
    ++ "&timestamp=" ++ toString ts

/-- JS `String.prototype.includes`. -/
def strIncludes (s sub : String) : Bool := decide (sub.toList <:+: s.toList)

/-- `req.headers.origin && (origin.includes('localhost') || origin.includes('127.0.0.1'))`
(server.js:100). -/
def isLocalOrigin (origin : Option String) : Bool :=
  match origin with
  | some o => strIncludes o "localhost" || strIncludes o "127.0.0.1"
  | none => false

/-- The argument passed to `stripe.checkout.sessions.create` (server.js:113-127).
The outer `successUrl` and `cancelUrl` consts are used; the local-origin
branch of server.js:101-106 declares block-scoped shadows that are never
read, so the production URLs always appear here. -/
def buildParams (req : CheckoutRequest) (ts : Nat) : SessionParams where
  payment_method_types := ["card"]
  line_items := buildLineItems req
  mode := "payment"
  success_url := prodSuccessUrl (req.userId.getD "") ts req.type
  cancel_url := prodCancelUrl (req.userId.getD "") ts
  client_reference_id := req.userId.getD ""
  meta_userId := req.userId.getD ""
  meta_timestamp := toString ts
  meta_packageId := jsOrStr req.packageId ""
  meta_type := jsOrStr req.type "package"
  meta_itemCount := match req.items with | some l => l.length | none => 1

/-- POST /create-checkout-session (server.js:43-143). `proc` is the outcome
of the external `stripe.checkout.sessions.create` call: `Except.error msg`
models a thrown exception with message `msg`. Returns the response and the
list of external calls performed. -/
def createCheckout (req : CheckoutRequest) (origin : Option String) (ts : Nat)
    (proc : SessionParams → Except String String) : Response × List ExtCall :=
  if !jsTruthyStr req.userId then
    ({ status := 400, body := [("error", JVal.str "Missing userId")] }, [])
  else if !jsTruthyQ req.amount && !jsTruthyArr req.items then
    ({ status := 400,
       body := [("error", JVal.str "Missing payment details (amount or items)")] }, [])
  else
    -- server.js:101-106: these block-scoped consts shadow the outer URLs
    -- and are never read afterwards; they do not reach the outgoing call.
    let _shadowSuccessUrl : Option String :=
      if isLocalOrigin origin then
        some (localSuccessUrl (jsOrStr origin "http://localhost:5500")
          (req.userId.getD "") ts req.type)
      else none
    let _shadowCancelUrl : Option String :=
      if isLocalOrigin origin then
        some (localCancelUrl (jsOrStr origin "http://localhost:5500")
          (req.userId.getD "") ts)
      else none
    let params := buildParams req ts
    match proc params with
    | Except.ok sid =>
        ({ status := 200,
           body := [("id", JVal.str sid), ("timestamp", JVal.num (ts : ℚ)),
                    ("success", JVal.bool true)] },
         [ExtCall.createSession params])
    | Except.error msg =>
        ({ status := 500,
           body := [("error", JVal.str (jsErrMsg msg "Error creating checkout session")),
                    ("success", JVal.bool false)] },
         [ExtCall.createSession params])

/-- GET /create-checkout-session (server.js:146-151). -/
def getCheckoutSession : Response where
  status := 405
  body := [("error", JVal.str "GET method not allowed for this endpoint. Use POST instead."),
           ("success", JVal.bool false)]

/-- POST /verify-payment (server.js:154-194). `proc` is the outcome of
`stripe.checkout.sessions.retrieve` for a given session id. -/
def verifyPayment (req : VerifyRequest)
    (proc : String → Except String StripeSession) : Response × List ExtCall :=
  if !jsTruthyStr req.sessionId then
    ({ status := 400,
       body := [("error", JVal.str "Session ID is required"),
                ("success", JVal.bool false)] }, [])
  else
    let sid := req.sessionId.getD ""
    match proc sid with
    | Except.error msg =>
        ({ status := 500,
           body := [("error", JVal.str (jsErrMsg msg "Error verifying payment")),
                    ("success", JVal.bool false)] },
         [ExtCall.retrieveSession sid])
    | Except.ok s =>
        if s.payment_status = "paid" then
          ({ status := 200,
             body := [("paid", JVal.bool true), ("amount", JVal.num (s.amount_total / 100)),
                      ("customerId", match s.customer with
                                     | some c => JVal.str c
                                     | none => JVal.null),
                      ("metadata", JVal.strMap s.metadata),
                      ("success", JVal.bool true)] },
           [ExtCall.retrieveSession sid])
        else
          ({ status := 200,
             body := [("paid", JVal.bool false), ("status", JVal.str s.payment_status),
                      ("metadata", JVal.strMap s.metadata),
                      ("success", JVal.bool true)] },
           [ExtCall.retrieveSession sid])

/-- POST /handle-cancellation (server.js:197-226). Performs no external call
and touches no state: it is a pure function of the request alone. A missing
`timestamp` is echoed as `null` (JS `undefined`). -/
def handleCancellation (req : CancellationRequest) : Response × List ExtCall :=
  if !jsTruthyStr req.userId then
    ({ status := 400,
       body := [("error", JVal.str "User ID is required"),
                ("success", JVal.bool false)] }, [])
  else
    ({ status := 200,
       body := [("success", JVal.bool true),
                ("message", JVal.str "Cancellation processed"),
                ("userId", JVal.str (req.userId.getD "")),
                ("timestamp", req.timestamp.getD JVal.null)] }, [])

/-- The 404 fallback middleware (server.js:229-234). -/
def fallbackRoute (method url : String) : Response where
  status := 404
  body := [("error", JVal.str ("Route not found: " ++ method ++ " " ++ url)),
           ("success", JVal.bool false)]

/-- GET /health (server.js:35-40). -/
def healthCheck (isoTimestamp : String) : Response where
  status := 200
  body := [("status", JVal.str "healthy"), ("timestamp", JVal.str isoTimestamp)]

/-- Look up a field of a JSON body. -/
def getField (body : List (String × JVal)) (k : String) : Option JVal :=
  (body.find? (fun p => p.1 == k)).map (fun p => p.2)

/-- The body has an `error` field holding a string. -/
def hasErrorStr (r : Response) : Bool :=
  match getField r.body "error" with
  | some (JVal.str _) => true
  | _ => false

/-- The body has a `success` field holding `false`. -/
def hasSuccessFalse (r : Response) : Bool :=
  getField r.body "success" == some (JVal.bool false)

/-! ### Branch-characterization lemmas for the handlers -/

theorem createCheckout_400_userId (req : CheckoutRequest) (origin : Option String)
    (ts : Nat) (proc : SessionParams → Except String String)
    (h : jsTruthyStr req.userId = false) :
    createCheckout req origin ts proc =
      ({ status := 400, body := [("error", JVal.str "Missing userId")] }, []) := by
  simp [createCheckout, h]

theorem createCheckout_400_details (req : CheckoutRequest) (origin : Option String)
    (ts : Nat) (proc : SessionParams → Except String String)
    (h : jsTruthyStr req.userId = true)
    (h2 : (!jsTruthyQ req.amount && !jsTruthyArr req.items) = true) :
    createCheckout req origin ts proc =
      ({ status := 400,
         body := [("error", JVal.str "Missing payment details (amount or items)")] }, []) := by
  simp [createCheckout, h, h2]

theorem createCheckout_ok (req : CheckoutRequest) (origin : Option String)
    (ts : Nat) (proc : SessionParams → Except String String) (sid : String)
    (h : jsTruthyStr req.userId = true)
    (h2 : (!jsTruthyQ req.amount && !jsTruthyArr req.items) = false)
    (hp : proc (buildParams req ts) = Except.ok sid) :
    createCheckout req origin ts proc =
      ({ status := 200,
         body := [("id", JVal.str sid), ("timestamp", JVal.num (ts : ℚ)),
                  ("success", JVal.bool true)] },
       [ExtCall.createSession (buildParams req ts)]) := by
  simp [createCheckout, h, h2, hp]

theorem createCheckout_error (req : CheckoutRequest) (origin : Option String)
    (ts : Nat) (proc : SessionParams → Except String String) (msg : String)
    (h : jsTruthyStr req.userId = true)
    (h2 : (!jsTruthyQ req.amount && !jsTruthyArr req.items) = false)
    (hp : proc (buildParams req ts) = Except.error msg) :
    createCheckout req origin ts proc =
      ({ status := 500,
         body := [("error", JVal.str (jsErrMsg msg "Error creating checkout session")),
                  ("success", JVal.bool false)] },
       [ExtCall.createSession (buildParams req ts)]) := by
  simp [createCheckout, h, h2, hp]

/-- Once validation passes, the session-creation call is made exactly once
and no 400 is produced, whatever the processor outcome. -/
theorem createCheckout_pass (req : CheckoutRequest) (origin : Option String)
    (ts : Nat) (proc : SessionParams → Except String String)
    (h : jsTruthyStr req.userId = true)
    (h2 : (!jsTruthyQ req.amount && !jsTruthyArr req.items) = false) :
    (createCheckout req origin ts proc).1.status ≠ 400 ∧
    (createCheckout req origin ts proc).2 = [ExtCall.createSession (buildParams req ts)] := by
  cases hp : proc (buildParams req ts) with
  | ok sid =>
      rw [createCheckout_ok req origin ts proc sid h h2 hp]
      exact ⟨by simp, rfl⟩
  | error msg =>
      rw [createCheckout_error req origin ts proc msg h h2 hp]
      exact ⟨by simp, rfl⟩

theorem itemsValidation (req : CheckoutRequest) (l : List Item)
    (hi : req.items = some l) :
    (!jsTruthyQ req.amount && !jsTruthyArr req.items) = false := by
  simp [hi, jsTruthyArr]

theorem amountValidation (req : CheckoutRequest) (q : ℚ)
    (ha : req.amount = some q) (hq : q ≠ 0) :
    (!jsTruthyQ req.amount && !jsTruthyArr req.items) = false := by
  simp [ha, jsTruthyQ, hq]

theorem verifyPayment_400 (req : VerifyRequest)
    (proc : String → Except String StripeSession)
    (h : jsTruthyStr req.sessionId = false) :
    verifyPayment req proc =
      ({ status := 400,
         body := [("error", JVal.str "Session ID is required"),
                  ("success", JVal.bool false)] }, []) := by
  simp [verifyPayment, h]

theorem verifyPayment_error (req : VerifyRequest)
    (proc : String → Except String StripeSession) (msg : String)
    (h : jsTruthyStr req.sessionId = true)
    (hp : proc (req.sessionId.getD "") = Except.error msg) :
    verifyPayment req proc =
      ({ status := 500,
         body := [("error", JVal.str (jsErrMsg msg "Error verifying payment")),
                  ("success", JVal.bool false)] },
       [ExtCall.retrieveSession (req.sessionId.getD "")]) := by
  simp [verifyPayment, h, hp]

theorem verifyPayment_paid (req : VerifyRequest)
    (proc : String → Except String StripeSession) (s : StripeSession)
    (h : jsTruthyStr req.sessionId = true)
    (hp : proc (req.sessionId.getD "") = Except.ok s)
    (hpaid : s.payment_status = "paid") :
    verifyPayment req proc =
      ({ status := 200,
         body := [("paid", JVal.bool true), ("amount", JVal.num (s.amount_total / 100)),
                  ("customerId", match s.customer with
                                 | some c => JVal.str c
                                 | none => JVal.null),
                  ("metadata", JVal.strMap s.metadata),
                  ("success", JVal.bool true)] },
       [ExtCall.retrieveSession (req.sessionId.getD "")]) := by
  simp [verifyPayment, h, hp, hpaid]

theorem verifyPayment_unpaid (req : VerifyRequest)
    (proc : String → Except String StripeSession) (s : StripeSession)
    (h : jsTruthyStr req.sessionId = true)
    (hp : proc (req.sessionId.getD "") = Except.ok s)
    (hnot : s.payment_status ≠ "paid") :
    verifyPayment req proc =
      ({ status := 200,
         body := [("paid", JVal.bool false), ("status", JVal.str s.payment_status),
                  ("metadata", JVal.strMap s.metadata),
                  ("success", JVal.bool true)] },
       [ExtCall.retrieveSession (req.sessionId.getD "")]) := by
  simp [verifyPayment, h, hp, hnot]

theorem handleCancellation_400 (req : CancellationRequest)
    (h : jsTruthyStr req.userId = false) :
    handleCancellation req =
      ({ status := 400,
         body := [("error", JVal.str "User ID is required"),
                  ("success", JVal.bool false)] }, []) := by
  simp [handleCancellation, h]

theorem handleCancellation_200 (req : CancellationRequest)
    (h : jsTruthyStr req.userId = true) :
    handleCancellation req =
      ({ status := 200,
         body := [("success", JVal.bool true),
                  ("message", JVal.str "Cancellation processed"),
                  ("userId", JVal.str (req.userId.getD "")),
                  ("timestamp", req.timestamp.getD JVal.null)] }, []) := by
  simp [handleCancellation, h]

/-! ### Claim C1 -/

/-- Claim C1 counterexample: the create-checkout-session validation failure
for a missing `userId` is a 400 response whose body holds only the `error`
field and no `success: false`, refuting the claim that every failure
response carries `success: false` (server.js:50 sends only `{error}`). -/
theorem c1_counterexample :
    (createCheckout
        { userId := none, amount := none, items := none, type := none, packageId := none }
        none 0 (fun _ => Except.ok "sess")).1.status = 400 ∧
    hasErrorStr (createCheckout
        { userId := none, amount := none, items := none, type := none, packageId := none }
        none 0 (fun _ => Except.ok "sess")).1 = true ∧
    hasSuccessFalse (createCheckout
        { userId := none, amount := none, items := none, type := none, packageId := none }
        none 0 (fun _ => Except.ok "sess")).1 = false := by
  decide

/-- Claim C1 (amended): every failing response carries an `error` string
field; every failing response except the two create-checkout-session
validation 400s (which carry only the `error` field) also carries
`success: false`. -/
theorem c1_failure_envelope (req : CheckoutRequest) (origin : Option String)
    (ts : Nat) (proc : SessionParams → Except String String)
    (vreq : VerifyRequest) (vproc : String → Except String StripeSession)
    (creq : CancellationRequest) (m u : String) :
    ((createCheckout req origin ts proc).1.status ≠ 200 →
      hasErrorStr (createCheckout req origin ts proc).1 = true) ∧
    ((createCheckout req origin ts proc).1.status = 500 →
      hasSuccessFalse (createCheckout req origin ts proc).1 = true) ∧
    ((verifyPayment vreq vproc).1.status ≠ 200 →
      hasErrorStr (verifyPayment vreq vproc).1 = true ∧
      hasSuccessFalse (verifyPayment vreq vproc).1 = true) ∧
    ((handleCancellation creq).1.status ≠ 200 →
      hasErrorStr (handleCancellation creq).1 = true ∧
      hasSuccessFalse (handleCancellation creq).1 = true) ∧
    (getCheckoutSession.status = 405 ∧
      hasErrorStr getCheckoutSession = true ∧
      hasSuccessFalse getCheckoutSession = true) ∧
    ((fallbackRoute m u).status = 404 ∧
      hasErrorStr (fallbackRoute m u) = true ∧
      hasSuccessFalse (fallbackRoute m u) = true) := by
  refine ⟨?_, ?_, ?_, ?_, ⟨rfl, rfl, rfl⟩, ⟨rfl, rfl, rfl⟩⟩
  · rcases Bool.eq_false_or_eq_true (jsTruthyStr req.userId) with h1 | h1
    · rcases Bool.eq_false_or_eq_true
        (!jsTruthyQ req.amount && !jsTruthyArr req.items) with h2 | h2
      · rw [createCheckout_400_details req origin ts proc h1 h2]
        exact fun _ => rfl
      · cases hp : proc (buildParams req ts) with
        | ok sid =>
            rw [createCheckout_ok req origin ts proc sid h1 h2 hp]
            exact fun h => absurd rfl h
        | error msg =>
            rw [createCheckout_error req origin ts proc msg h1 h2 hp]
            exact fun _ => rfl
    · rw [createCheckout_400_userId req origin ts proc h1]
      exact fun _ => rfl
  · rcases Bool.eq_false_or_eq_true (jsTruthyStr req.userId) with h1 | h1
    · rcases Bool.eq_false_or_eq_true
        (!jsTruthyQ req.amount && !jsTruthyArr req.items) with h2 | h2
      · rw [createCheckout_400_details req origin ts proc h1 h2]
        exact fun h => absurd h (by decide)
      · cases hp : proc (buildParams req ts) with
        | ok sid =>
            rw [createCheckout_ok req origin ts proc sid h1 h2 hp]
            exact fun h => absurd h (by simp)
        | error msg =>
            rw [createCheckout_error req origin ts proc msg h1 h2 hp]
            exact fun _ => rfl
    · rw [createCheckout_400_userId req origin ts proc h1]
      exact fun h => absurd h (by decide)
  · rcases Bool.eq_false_or_eq_true (jsTruthyStr vreq.sessionId) with h1 | h1
    · cases hp : vproc (vreq.sessionId.getD "") with
      | ok s =>
          by_cases hpaid : s.payment_status = "paid"
          · rw [verifyPayment_paid vreq vproc s h1 hp hpaid]
            exact fun h => absurd rfl h
          · rw [verifyPayment_unpaid vreq vproc s h1 hp hpaid]
            exact fun h => absurd rfl h
      | error msg =>
          rw [verifyPayment_error vreq vproc msg h1 hp]
          exact fun _ => ⟨rfl, rfl⟩
    · rw [verifyPayment_400 vreq vproc h1]
      exact fun _ => ⟨rfl, rfl⟩
  · rcases Bool.eq_false_or_eq_true (jsTruthyStr creq.userId) with h1 | h1
    · rw [handleCancellation_200 creq h1]
      exact fun h => absurd rfl h
    · rw [handleCancellation_400 creq h1]
      exact fun _ => ⟨rfl, rfl⟩

/-- Claim C1 witness: concrete failing requests on every route, showing the
amended envelope guarantee at work (including a 500 from a processor
exception and the 405/404 routes). -/
theorem c1_failure_envelope_witness :
    hasErrorStr (createCheckout
        { userId := some "u", amount := none, items := some [], type := none, packageId := none }
        none 0 (fun _ => Except.error "boom")).1 = true ∧
    hasSuccessFalse (createCheckout
        { userId := some "u", amount := none, items := some [], type := none, packageId := none }
        none 0 (fun _ => Except.error "boom")).1 = true ∧
    hasErrorStr (verifyPayment { sessionId := none }
        (fun _ => Except.ok { id := "cs", payment_status := "paid", amount_total := 0,
                              customer := none, metadata := [] })).1 = true ∧
    hasSuccessFalse (verifyPayment { sessionId := none }
        (fun _ => Except.ok { id := "cs", payment_status := "paid", amount_total := 0,
                              customer := none, metadata := [] })).1 = true ∧
    hasErrorStr (handleCancellation { userId := none, timestamp := none }).1 = true ∧
    hasSuccessFalse (handleCancellation { userId := none, timestamp := none }).1 = true ∧
    hasErrorStr getCheckoutSession = true ∧
    hasSuccessFalse (fallbackRoute "DELETE" "/foo") = true := by
  have h := c1_failure_envelope
    { userId := some "u", amount := none, items := some [], type := none, packageId := none }
    none 0 (fun _ => Except.error "boom")
    { sessionId := none }
    (fun _ => Except.ok { id := "cs", payment_status := "paid", amount_total := 0,
                          customer := none, metadata := [] })
    { userId := none, timestamp := none } "DELETE" "/foo"
  obtain ⟨he, hs, hv, hc, hg, hf⟩ := h
  exact ⟨he (by decide), hs (by decide), (hv (by decide)).1, (hv (by decide)).2,
         (hc (by decide)).1, (hc (by decide)).2, hg.2.1, hf.2.2⟩

/-! ### Claim C2 -/

/-- Claim C2 counterexample: a CheckoutRequest with `userId` present,
`amount` absent and `items` present but EMPTY is not rejected with 400: the
truthiness test `!amount && !items` at server.js:53 sees the empty array as
truthy, so the request proceeds to the processor call and (with a
succeeding processor) yields 200. -/
theorem c2_counterexample :
    (createCheckout
        { userId := some "u", amount := none, items := some [], type := none, packageId := none }
        none 0 (fun _ => Except.ok "sess")).1.status = 200 := by
  decide

/-- Claim C2 (amended): if `amount` is absent and `items` is absent (not
merely empty), create-checkout-session responds 400 with an error body,
whatever the other fields; an empty `items` array defeats the check because
server.js:53 only tests that `items` exists. -/
theorem c2_missing_payment_details (req : CheckoutRequest) (origin : Option String)
    (ts : Nat) (proc : SessionParams → Except String String)
    (ha : req.amount = none) (hi : req.items = none) :
    (createCheckout req origin ts proc).1.status = 400 ∧
    hasErrorStr (createCheckout req origin ts proc).1 = true := by
  rcases Bool.eq_false_or_eq_true (jsTruthyStr req.userId) with h1 | h1
  · have h2 : (!jsTruthyQ req.amount && !jsTruthyArr req.items) = true := by
      rw [ha, hi]; rfl
    rw [createCheckout_400_details req origin ts proc h1 h2]
    exact ⟨rfl, rfl⟩
  · rw [createCheckout_400_userId req origin ts proc h1]
    exact ⟨rfl, rfl⟩

/-- Claim C2 witness: with `userId` present but neither `amount` nor `items`
in the body the endpoint answers 400 with an error field. -/
theorem c2_missing_payment_details_witness :
    (createCheckout
        { userId := some "u", amount := none, items := none, type := some "package",
          packageId := some "p1" }
        none 0 (fun _ => Except.ok "sess")).1.status = 400 ∧
    hasErrorStr (createCheckout
        { userId := some "u", amount := none, items := none, type := some "package",
          packageId := some "p1" }
        none 0 (fun _ => Except.ok "sess")).1 = true :=
  c2_missing_payment_details _ none 0 _ rfl rfl

/-! ### Claim C3 -/

/-- Claim C3 (confirmed): with `type = "activity_upgrade"` and a non-empty
`items` array, the endpoint sends the processor one line item per input
item, built by `itemToLineItem` (title defaulting to "Activity", quantity
defaulting to 1, unit price `jsRound (price * 100)` minor units); no 400 is
produced. The Safari instance is evaluated in the witness. -/
theorem c3_activity_line_items (req : CheckoutRequest) (origin : Option String)
    (ts : Nat) (proc : SessionParams → Except String String) (its : List Item)
    (hu : jsTruthyStr req.userId = true)
    (ht : req.type = some "activity_upgrade")
    (hi : req.items = some its)
    (hne : its ≠ []) :
    (createCheckout req origin ts proc).1.status ≠ 400 ∧
    (createCheckout req origin ts proc).2 = [ExtCall.createSession (buildParams req ts)] ∧
    (buildParams req ts).line_items = its.map itemToLineItem := by
  obtain ⟨hs, hc⟩ := createCheckout_pass req origin ts proc hu (itemsValidation req its hi)
  refine ⟨hs, hc, ?_⟩
  have hlen : 0 < its.length := List.length_pos.mpr hne
  have hb : activityBranch req = true := by
    simp [activityBranch, ht, hi, hlen]
  simp [buildParams, buildLineItems, hb, hi]

/-- Claim C3 witness: items = [\x7btitle: "Safari", quantity: 2,
price: 49.99\x7d] produces exactly one line item with unit price 4999 minor
units and quantity 2. -/
theorem c3_activity_line_items_witness :
    (createCheckout
        { userId := some "u1", amount := none,
          items := some [{ title := some "Safari", quantity := some 2, price := some (49.99 : ℚ) }],
          type := some "activity_upgrade", packageId := none }
        none 7 (fun _ => Except.ok "sess")).2 =
      [ExtCall.createSession (buildParams
        { userId := some "u1", amount := none,
          items := some [{ title := some "Safari", quantity := some 2, price := some (49.99 : ℚ) }],
          type := some "activity_upgrade", packageId := none } 7)] ∧
    (buildParams
        { userId := some "u1", amount := none,
          items := some [{ title := some "Safari", quantity := some 2, price := some (49.99 : ℚ) }],
          type := some "activity_upgrade", packageId := none } 7).line_items =
      [{ name := "Safari", description := some "Quantity: 2",
         unit_amount := some 4999, quantity := 2 }] := by
  have h := c3_activity_line_items
    { userId := some "u1", amount := none,
      items := some [{ title := some "Safari", quantity := some 2, price := some (49.99 : ℚ) }],
      type := some "activity_upgrade", packageId := none }
    none 7 (fun _ => Except.ok "sess")
    [{ title := some "Safari", quantity := some 2, price := some (49.99 : ℚ) }]
    (by decide) rfl rfl (by simp)
  have hsafari : itemToLineItem
      { title := some "Safari", quantity := some 2, price := some (49.99 : ℚ) } =
      { name := "Safari", description := some "Quantity: 2",
        unit_amount := some 4999, quantity := 2 } := by
    simp only [itemToLineItem, jsOrStr, jsOrQ, jsNumStr, jsRound, LineItem.mk.injEq]
    refine ⟨by decide, ?_, ?_, by norm_num⟩
    · norm_num
      decide
    · norm_num
  refine ⟨h.2.1, ?_⟩
  rw [h.2.2, List.map_cons, List.map_nil, hsafari]

/-! ### Claim C4 -/

/-- Claim C4 (confirmed): when the activity-upgrade branch is not taken and
`amount` is present (and validation passes), the endpoint sends exactly one
line item named "Travel Package Booking" with unit price
`jsRound (amount * 100)` minor units and quantity 1. -/
theorem c4_package_line_item (req : CheckoutRequest) (origin : Option String)
    (ts : Nat) (proc : SessionParams → Except String String) (a : ℚ)
    (hu : jsTruthyStr req.userId = true)
    (hv : (!jsTruthyQ req.amount && !jsTruthyArr req.items) = false)
    (hb : activityBranch req = false)
    (ha : req.amount = some a) :
    (createCheckout req origin ts proc).1.status ≠ 400 ∧
    (createCheckout req origin ts proc).2 = [ExtCall.createSession (buildParams req ts)] ∧
    (buildParams req ts).line_items =
      [{ name := "Travel Package Booking", description := none,
         unit_amount := some (jsRound (a * 100)), quantity := 1 }] := by
  obtain ⟨hs, hc⟩ := createCheckout_pass req origin ts proc hu hv
  refine ⟨hs, hc, ?_⟩
  simp [buildParams, buildLineItems, hb, ha, jsRound100]

/-- Claim C4 witness: `type` absent and amount = 120.5 yields the single
"Travel Package Booking" line item with unit price 12050 and quantity 1. -/
theorem c4_package_line_item_witness :
    (createCheckout
        { userId := some "u2", amount := some (120.5 : ℚ), items := none,
          type := none, packageId := none }
        none 3 (fun _ => Except.ok "sess")).2 =
      [ExtCall.createSession (buildParams
        { userId := some "u2", amount := some (120.5 : ℚ), items := none,
          type := none, packageId := none } 3)] ∧
    (buildParams
        { userId := some "u2", amount := some (120.5 : ℚ), items := none,
          type := none, packageId := none } 3).line_items =
      [{ name := "Travel Package Booking", description := none,
         unit_amount := some 12050, quantity := 1 }] := by
  have h := c4_package_line_item
    { userId := some "u2", amount := some (120.5 : ℚ), items := none,
      type := none, packageId := none }
    none 3 (fun _ => Except.ok "sess") (120.5 : ℚ)
    (by decide)
    (amountValidation _ (120.5 : ℚ) rfl (by norm_num))
    (by decide) rfl
  refine ⟨h.2.1, ?_⟩
  rw [h.2.2]
  norm_num [jsRound]

/-! ### Claim C5 -/

/-- Claim C5 (confirmed): when the session retrieval succeeds, a "paid"
payment status yields `\x7bpaid: true, amount: amount_total / 100,
customerId, metadata, success: true\x7d` and any other status yields
`\x7bpaid: false, status, metadata, success: true\x7d`, both at HTTP 200. -/
theorem c5_verify_result (req : VerifyRequest)
    (proc : String → Except String StripeSession) (s : StripeSession)
    (h : jsTruthyStr req.sessionId = true)
    (hp : proc (req.sessionId.getD "") = Except.ok s) :
    (s.payment_status = "paid" →
      (verifyPayment req proc).1 =
        { status := 200,
          body := [("paid", JVal.bool true), ("amount", JVal.num (s.amount_total / 100)),
                   ("customerId", match s.customer with
                                  | some c => JVal.str c
                                  | none => JVal.null),
                   ("metadata", JVal.strMap s.metadata),
                   ("success", JVal.bool true)] }) ∧
    (s.payment_status ≠ "paid" →
      (verifyPayment req proc).1 =
        { status := 200,
          body := [("paid", JVal.bool false), ("status", JVal.str s.payment_status),
                   ("metadata", JVal.strMap s.metadata),
                   ("success", JVal.bool true)] }) := by
  constructor
  · intro hpaid
    rw [verifyPayment_paid req proc s h hp hpaid]
  · intro hnot
    rw [verifyPayment_unpaid req proc s h hp hnot]

/-- Claim C5 witness: `payment_status = "paid"` with `amount_total = 5000`
yields `paid: true` and `amount: 50`; `payment_status = "unpaid"` yields
`paid: false` with the status string echoed. -/
theorem c5_verify_result_witness :
    (verifyPayment { sessionId := some "cs_a" }
        (fun _ => Except.ok { id := "cs_a", payment_status := "paid", amount_total := 5000,
                              customer := some "cus_9", metadata := [("userId", "u1")] })).1 =
      { status := 200,
        body := [("paid", JVal.bool true), ("amount", JVal.num 50),
                 ("customerId", JVal.str "cus_9"),
                 ("metadata", JVal.strMap [("userId", "u1")]),
                 ("success", JVal.bool true)] } ∧
    (verifyPayment { sessionId := some "cs_b" }
        (fun _ => Except.ok { id := "cs_b", payment_status := "unpaid", amount_total := 0,
                              customer := none, metadata := [] })).1 =
      { status := 200,
        body := [("paid", JVal.bool false), ("status", JVal.str "unpaid"),
                 ("metadata", JVal.strMap []),
                 ("success", JVal.bool true)] } := by
  constructor
  · have h := (c5_verify_result { sessionId := some "cs_a" }
      (fun _ => Except.ok { id := "cs_a", payment_status := "paid", amount_total := 5000,
                            customer := some "cus_9", metadata := [("userId", "u1")] })
      { id := "cs_a", payment_status := "paid", amount_total := 5000,
        customer := some "cus_9", metadata := [("userId", "u1")] }
      (by decide) rfl).1 rfl
    rw [h]
    norm_num
  · exact (c5_verify_result { sessionId := some "cs_b" }
      (fun _ => Except.ok { id := "cs_b", payment_status := "unpaid", amount_total := 0,
                            customer := none, metadata := [] })
      { id := "cs_b", payment_status := "unpaid", amount_total := 0,
        customer := none, metadata := [] }
      (by decide) rfl).2 (by decide)

/-! ### Claim C6 -/

/-- Claim C6 (confirmed): a CheckoutRequest or CancellationRequest without
`userId`, or a VerifyRequest without `sessionId`, is answered 400 with an
`error` field regardless of the other fields, and the list of external
calls performed is empty. -/
theorem c6_missing_identifier (req : CheckoutRequest) (origin : Option String)
    (ts : Nat) (proc : SessionParams → Except String String)
    (vreq : VerifyRequest) (vproc : String → Except String StripeSession)
    (creq : CancellationRequest)
    (h1 : req.userId = none) (h2 : vreq.sessionId = none) (h3 : creq.userId = none) :
    ((createCheckout req origin ts proc).1.status = 400 ∧
     hasErrorStr (createCheckout req origin ts proc).1 = true ∧
     (createCheckout req origin ts proc).2 = []) ∧
    ((verifyPayment vreq vproc).1.status = 400 ∧
     hasErrorStr (verifyPayment vreq vproc).1 = true ∧
     (verifyPayment vreq vproc).2 = []) ∧
    ((handleCancellation creq).1.status = 400 ∧
     hasErrorStr (handleCancellation creq).1 = true ∧
     (handleCancellation creq).2 = []) := by
  have hu : jsTruthyStr req.userId = false := by rw [h1]; rfl
  have hs : jsTruthyStr vreq.sessionId = false := by rw [h2]; rfl
  have hc : jsTruthyStr creq.userId = false := by rw [h3]; rfl
  rw [createCheckout_400_userId req origin ts proc hu, verifyPayment_400 vreq vproc hs,
      handleCancellation_400 creq hc]
  exact ⟨⟨rfl, rfl, rfl⟩, ⟨rfl, rfl, rfl⟩, ⟨rfl, rfl, rfl⟩⟩

/-- Claim C6 witness: requests carrying every other field but missing the
required identifier are rejected 400 with no external call. -/
theorem c6_missing_identifier_witness :
    ((createCheckout
        { userId := none, amount := some 10, items := none,
          type := some "package", packageId := some "pkg_1" }
        (some "http://localhost:5500") 5 (fun _ => Except.ok "sess")).1.status = 400 ∧
     hasErrorStr (createCheckout
        { userId := none, amount := some 10, items := none,
          type := some "package", packageId := some "pkg_1" }
        (some "http://localhost:5500") 5 (fun _ => Except.ok "sess")).1 = true ∧
     (createCheckout
        { userId := none, amount := some 10, items := none,
          type := some "package", packageId := some "pkg_1" }
        (some "http://localhost:5500") 5 (fun _ => Except.ok "sess")).2 = []) ∧
    ((verifyPayment { sessionId := none }
        (fun _ => Except.ok { id := "cs", payment_status := "paid", amount_total := 100,
                              customer := none, metadata := [] })).1.status = 400 ∧
     hasErrorStr (verifyPayment { sessionId := none }
        (fun _ => Except.ok { id := "cs", payment_status := "paid", amount_total := 100,
                              customer := none, metadata := [] })).1 = true ∧
     (verifyPayment { sessionId := none }
        (fun _ => Except.ok { id := "cs", payment_status := "paid", amount_total := 100,
                              customer := none, metadata := [] })).2 = []) ∧
    ((handleCancellation { userId := none, timestamp := some (JVal.num 1700000000) }).1.status = 400 ∧
     hasErrorStr (handleCancellation { userId := none, timestamp := some (JVal.num 1700000000) }).1 = true ∧
     (handleCancellation { userId := none, timestamp := some (JVal.num 1700000000) }).2 = []) :=
  c6_missing_identifier _ _ 5 _ _ _ _ rfl rfl rfl

/-! ### Claim C7 -/

/-- Claim C7 (confirmed): an exception thrown by the external capability
during session creation or session retrieval turns into exactly an HTTP 500
response whose body is `\x7berror: <message or default>, success: false\x7d`. -/
theorem c7_upstream_exception_500 (req : CheckoutRequest) (origin : Option String)
    (ts : Nat) (proc : SessionParams → Except String String) (msg : String)
    (vreq : VerifyRequest) (vproc : String → Except String StripeSession) (vmsg : String)
    (hu : jsTruthyStr req.userId = true)
    (hv : (!jsTruthyQ req.amount && !jsTruthyArr req.items) = false)
    (hp : proc (buildParams req ts) = Except.error msg)
    (hs : jsTruthyStr vreq.sessionId = true)
    (hr : vproc (vreq.sessionId.getD "") = Except.error vmsg) :
    (createCheckout req origin ts proc).1 =
      { status := 500,
        body := [("error", JVal.str (jsErrMsg msg "Error creating checkout session")),
                 ("success", JVal.bool false)] } ∧
    (verifyPayment vreq vproc).1 =
      { status := 500,
        body := [("error", JVal.str (jsErrMsg vmsg "Error verifying payment")),
                 ("success", JVal.bool false)] } := by
  rw [createCheckout_error req origin ts proc msg hu hv hp,
      verifyPayment_error vreq vproc vmsg hs hr]
  exact ⟨rfl, rfl⟩

/-- Claim C7 witness: a processor exception "Stripe is down" during create
and a "No such checkout.session" exception during retrieve both surface as
500 with the message passed through and `success: false`. -/
theorem c7_upstream_exception_500_witness :
    (createCheckout
        { userId := some "u5", amount := none, items := some [],
          type := none, packageId := none }
        none 0 (fun _ => Except.error "Stripe is down")).1 =
      { status := 500,
        body := [("error", JVal.str "Stripe is down"),
                 ("success", JVal.bool false)] } ∧
    (verifyPayment { sessionId := some "cs_x" }
        (fun _ => Except.error "No such checkout.session: cs_x")).1 =
      { status := 500,
        body := [("error", JVal.str "No such checkout.session: cs_x"),
                 ("success", JVal.bool false)] } := by
  have h := c7_upstream_exception_500
    { userId := some "u5", amount := none, items := some [],
      type := none, packageId := none }
    none 0 (fun _ => Except.error "Stripe is down") "Stripe is down"
    { sessionId := some "cs_x" }
    (fun _ => Except.error "No such checkout.session: cs_x") "No such checkout.session: cs_x"
    (by decide) (itemsValidation _ [] rfl) rfl (by decide) rfl
  exact ⟨h.1.trans (by decide), h.2.trans (by decide)⟩

/-! ### Claim C8 -/

/-- Claim C8 (confirmed): the outgoing call's success and cancel URLs are
always the fixed production ones; two requests differing only in the Origin
header produce identical handler output, because the local-origin override
at server.js:101-106 assigns to block-scoped shadows that are never read. -/
theorem c8_urls_origin_independent (req : CheckoutRequest) (o1 o2 : Option String)
    (ts : Nat) (proc : SessionParams → Except String String)
    (hu : jsTruthyStr req.userId = true)
    (hv : (!jsTruthyQ req.amount && !jsTruthyArr req.items) = false) :
    createCheckout req o1 ts proc = createCheckout req o2 ts proc ∧
    (createCheckout req o1 ts proc).2 = [ExtCall.createSession (buildParams req ts)] ∧
    (buildParams req ts).success_url = prodSuccessUrl (req.userId.getD "") ts req.type ∧
    (buildParams req ts).cancel_url = prodCancelUrl (req.userId.getD "") ts :=
  ⟨rfl, (createCheckout_pass req o1 ts proc hu hv).2, rfl, rfl⟩

/-- Claim C8 witness: a local-dev Origin (recognized as local by the dead
branch predicate) and the production Origin produce the same output, and the
success URL sent is the production one. -/
theorem c8_urls_origin_independent_witness :
    isLocalOrigin (some "http://localhost:5500") = true ∧
    isLocalOrigin (some "https://kenyaonabudgetsafaris.co.uk") = false ∧
    createCheckout
        { userId := some "u3", amount := none, items := some [],
          type := none, packageId := none }
        (some "http://localhost:5500") 9 (fun _ => Except.ok "sess") =
      createCheckout
        { userId := some "u3", amount := none, items := some [],
          type := none, packageId := none }
        (some "https://kenyaonabudgetsafaris.co.uk") 9 (fun _ => Except.ok "sess") ∧
    (buildParams
        { userId := some "u3", amount := none, items := some [],
          type := none, packageId := none } 9).success_url =
      prodSuccessUrl "u3" 9 none ∧
    prodSuccessUrl "u3" 9 none =
      "https://kenyaonabudgetsafaris.co.uk/payment-successa.html?session_id=\x7bCHECKOUT_SESSION_ID\x7d&userId=u3&timestamp=9&type=package" := by
  have h := c8_urls_origin_independent
    { userId := some "u3", amount := none, items := some [],
      type := none, packageId := none }
    (some "http://localhost:5500") (some "https://kenyaonabudgetsafaris.co.uk")
    9 (fun _ => Except.ok "sess")
    (by decide) (itemsValidation _ [] rfl)
  exact ⟨by decide, by decide, h.1, h.2.2.1, by decide⟩

/-! ### Claim C9 -/

/-- Claim C9 (confirmed): a CancellationRequest whose `userId` is present
(truthy) is answered 200 with exactly `\x7bsuccess: true, message:
"Cancellation processed", userId, timestamp\x7d`, the `timestamp` echoed
back (null when absent), and the handler performs no external call — it is
a pure function of the request with an empty call list. -/
theorem c9_cancellation_echo (req : CancellationRequest)
    (h : jsTruthyStr req.userId = true) :
    handleCancellation req =
      ({ status := 200,
         body := [("success", JVal.bool true),
                  ("message", JVal.str "Cancellation processed"),
                  ("userId", JVal.str (req.userId.getD "")),
                  ("timestamp", req.timestamp.getD JVal.null)] }, []) :=
  handleCancellation_200 req h

/-- Claim C9 witness: a request with only `userId` echoes the userId and a
null timestamp at 200, with no external call. -/
theorem c9_cancellation_echo_witness :
    handleCancellation { userId := some "u9", timestamp := none } =
      ({ status := 200,
         body := [("success", JVal.bool true),
                  ("message", JVal.str "Cancellation processed"),
                  ("userId", JVal.str "u9"),
                  ("timestamp", JVal.null)] }, []) :=
  c9_cancellation_echo { userId := some "u9", timestamp := none } (by decide)

/-! ### Claim C10 -/

/-- Claim C10 (confirmed): with `userId` present, a non-empty `items` array,
no `amount`, and `type` not "activity_upgrade", validation passes (no 400)
and the package branch sends a single "Travel Package Booking" line item
whose `unit_amount` is `Math.round(undefined * 100)` = NaN (modelled as
`none`), violating integer minor-unit integrality before the external
call. -/
theorem c10_nan_unit_amount (req : CheckoutRequest) (origin : Option String)
    (ts : Nat) (proc : SessionParams → Except String String) (l : List Item)
    (hu : jsTruthyStr req.userId = true)
    (hi : req.items = some l) (hl : l ≠ [])
    (ha : req.amount = none)
    (ht : req.type ≠ some "activity_upgrade") :
    (createCheckout req origin ts proc).1.status ≠ 400 ∧
    (createCheckout req origin ts proc).2 = [ExtCall.createSession (buildParams req ts)] ∧
    (buildParams req ts).line_items =
      [{ name := "Travel Package Booking", description := none,
         unit_amount := none, quantity := 1 }] := by
  obtain ⟨hs, hc⟩ := createCheckout_pass req origin ts proc hu (itemsValidation req l hi)
  refine ⟨hs, hc, ?_⟩
  have hbeq : (req.type == some "activity_upgrade") = false := beq_eq_false_iff_ne.mpr ht
  have hb : activityBranch req = false := by
    simp [activityBranch, hbeq]
  simp [buildParams, buildLineItems, hb, ha, jsRound100]

/-- Claim C10 witness: userId present, one item, no amount, type absent —
the request is not rejected and the single line item sent to the processor
has a NaN (non-integer) unit amount. -/
theorem c10_nan_unit_amount_witness :
    (createCheckout
        { userId := some "u4", amount := none,
          items := some [{ title := some "Night Safari", quantity := none, price := none }],
          type := none, packageId := none }
        none 2 (fun _ => Except.ok "sess")).1.status ≠ 400 ∧
    (createCheckout
        { userId := some "u4", amount := none,
          items := some [{ title := some "Night Safari", quantity := none, price := none }],
          type := none, packageId := none }
        none 2 (fun _ => Except.ok "sess")).2 =
      [ExtCall.createSession (buildParams
        { userId := some "u4", amount := none,
          items := some [{ title := some "Night Safari", quantity := none, price := none }],
          type := none, packageId := none } 2)] ∧
    (buildParams
        { userId := some "u4", amount := none,
          items := some [{ title := some "Night Safari", quantity := none, price := none }],
          type := none, packageId := none } 2).line_items =
      [{ name := "Travel Package Booking", description := none,
         unit_amount := none, quantity := 1 }] :=
  c10_nan_unit_amount _ none 2 _
    [{ title := some "Night Safari", quantity := none, price := none }]
    (by decide) rfl (by simp) rfl (by decide)

end PaymentServer
